import Mathlib

/-! Verification of the illiad-gateway-blueprints deployment pipeline.

The stack `src/illiad-gateway-pipeline-stack.ts` declares a CodePipeline with
three stages (Source, DeployToTest, DeployToProd), their actions, run orders,
artifacts, the shared CodeBuild role, the SNS approval topic and the optional
Slack notification construct.  This file embeds that declared topology
faithfully, adds an execution semantics for the pipeline orchestrator
(modelled from the specification, since the orchestration engine itself is a
managed service and not part of the repository), and proves the
specification's claims about ordering, gating and configuration. -/

namespace IlliadGateway

/-- Trigger modes of a GitHub source action (`GitHubTrigger` in the source:
`WEBHOOK` and `NONE` are the two used). -/
inductive TriggerKind
  | webhook
  | noTrigger
deriving DecidableEq

/-- The kind of a pipeline action: a version-control source fetch
(`GitHubSourceAction`), a CodeBuild run (`CodeBuildAction`), or a manual
approval (`ManualApprovalAction`). -/
inductive ActionKind
  | sourceKind
  | buildKind
  | approvalKind
deriving DecidableEq

/-- A value bound into a build action's environment.  The source binds
`appSourceAction.variables.commitId`, a pipeline variable resolved at
execution time to the commit id of the application source checkout. -/
inductive EnvValue
  | commitIdOfAppSource
  | literal (s : String)
deriving DecidableEq

/-- Resolution of an environment value in the execution whose application
source commit id is `commitId`. -/
def resolveEnv (commitId : String) : EnvValue → String
  | EnvValue.commitIdOfAppSource => commitId
  | EnvValue.literal s => s

/-- Configuration of the pipeline stack
(`IIlliadGatewayPipelineStackProps`). -/
structure PipelineProps where
  gitOwner : String
  gitTokenPath : String
  serviceRepository : String
  serviceBranch : String
  blueprintsRepository : String
  blueprintsBranch : String
  emailReceivers : String
  slackNotifyStackName : Option String
  contact : String
  owner : String
  sentryTokenPath : String
  sentryOrg : String
  sentryProject : String
  secretsPath : String
deriving DecidableEq

/-- The stage list of the stack (`const stages = ['test', 'prod']`). -/
def stages : List String := ["test", "prod"]

/-- The CodeBuild role.  The stack creates exactly one
(`IlliadGatewayBuildRole`, construct id `CodeBuildTrustRole`) and hands it the
full stage list; the role construct's own source file is not part of this
snapshot, so only what the stack passes in is modelled. -/
structure BuildRole where
  constructId : String
  assumedBy : String
  stages : List String
deriving DecidableEq

/-- The single CodeBuild role of the stack, scoped to both stages. -/
def codebuildRole : BuildRole :=
  { constructId := "CodeBuildTrustRole"
    assumedBy := "codebuild.amazonaws.com"
    stages := IlliadGateway.stages }

/-- A CodeBuild project (`IlliadGatewayBuildProject` / `IlliadGatewayQaProject`
instance).  The project constructs' own source files are not part of this
snapshot; the construct id, target stage and role passed by the pipeline stack
are what the claims examine. -/
structure BuildProject where
  constructId : String
  stage : String
  role : BuildRole
deriving DecidableEq

/-- Build project for the test deployment (stage `test`, shared role). -/
def deployToTestProject : BuildProject :=
  { constructId := "IlliadGatewayTestBuildProject"
    stage := "test"
    role := codebuildRole }

/-- QA (smoke test) project for the test environment. -/
def qaProject : BuildProject :=
  { constructId := "QAProject"
    stage := "test"
    role := codebuildRole }

/-- Build project for the prod deployment (stage `prod`, shared role). -/
def deployToProdProject : BuildProject :=
  { constructId := "IlliadGatewayProdBuildProject"
    stage := "prod"
    role := codebuildRole }

/-- QA (smoke test) project for the prod environment. -/
def prodQaProject : BuildProject :=
  { constructId := "QAProjectProd"
    stage := "prod"
    role := codebuildRole }

/-- Display name of the SNS topic wired into the manual approval action. -/
def approvalTopicName : String := "PipelineApprovalTopic"

/-- A pipeline action as configured in the stack.  Fields a given action kind
does not use are `none` / `[]`.  `runOrder` is `1` where the source omits it,
which is the CodePipeline default. -/
structure Action where
  actionName : String
  kind : ActionKind
  runOrder : Nat
  owner : Option String
  repo : Option String
  branch : Option String
  trigger : Option TriggerKind
  inputs : List String
  outputs : List String
  environmentVariables : List (String × EnvValue)
  project : Option BuildProject
  notificationTopic : Option String
deriving DecidableEq

/-- The application source action: webhook-triggered checkout of the service
repository, producing the `AppCode` artifact. -/
def appSourceAction (props : PipelineProps) : Action :=
  { actionName := "SourceAppCode"
    kind := ActionKind.sourceKind
    runOrder := 1
    owner := some props.gitOwner
    repo := some props.serviceRepository
    branch := some props.serviceBranch
    trigger := some TriggerKind.webhook
    inputs := []
    outputs := ["AppCode"]
    environmentVariables := []
    project := none
    notificationTopic := none }

/-- The infrastructure source action: non-triggered checkout of the blueprints
repository, producing the `InfraCode` artifact. -/
def infraSourceAction (props : PipelineProps) : Action :=
  { actionName := "SourceInfraCode"
    kind := ActionKind.sourceKind
    runOrder := 1
    owner := some props.gitOwner
    repo := some props.blueprintsRepository
    branch := some props.blueprintsBranch
    trigger := some TriggerKind.noTrigger
    inputs := []
    outputs := ["InfraCode"]
    environmentVariables := []
    project := none
    notificationTopic := none }

/-- The environment passed to the two build-and-deploy actions: the
application source commit id bound as `VERSION` (`actionEnvironment` in the
source). -/
def actionEnvironment : List (String × EnvValue) :=
  [("VERSION", EnvValue.commitIdOfAppSource)]

/-- Test-stage build-and-deploy action: run order 1, consumes `AppCode` plus
`InfraCode`, carries the `VERSION` environment binding. -/
def deployToTestAction : Action :=
  { actionName := "Build_and_Deploy"
    kind := ActionKind.buildKind
    runOrder := 1
    owner := none
    repo := none
    branch := none
    trigger := none
    inputs := ["AppCode", "InfraCode"]
    outputs := []
    environmentVariables := actionEnvironment
    project := some deployToTestProject
    notificationTopic := none }

/-- Test-stage smoke test action: run order 98, consumes `AppCode`, no
environment variables are configured on it. -/
def smokeTestsAction : Action :=
  { actionName := "SmokeTests"
    kind := ActionKind.buildKind
    runOrder := 98
    owner := none
    repo := none
    branch := none
    trigger := none
    inputs := ["AppCode"]
    outputs := []
    environmentVariables := []
    project := some qaProject
    notificationTopic := none }

/-- The manual approval action: run order 99 (the source comments that
approval should always be last), notifying the SNS approval topic. -/
def manualApprovalAction : Action :=
  { actionName := "ManualApprovalOfTestEnvironment"
    kind := ActionKind.approvalKind
    runOrder := 99
    owner := none
    repo := none
    branch := none
    trigger := none
    inputs := []
    outputs := []
    environmentVariables := []
    project := none
    notificationTopic := some approvalTopicName }

/-- Prod-stage build-and-deploy action.  The source omits `runOrder` here, so
it is the CodePipeline default 1. -/
def deployToProdAction : Action :=
  { actionName := "Build_and_Deploy"
    kind := ActionKind.buildKind
    runOrder := 1
    owner := none
    repo := none
    branch := none
    trigger := none
    inputs := ["AppCode", "InfraCode"]
    outputs := []
    environmentVariables := actionEnvironment
    project := some deployToProdProject
    notificationTopic := none }

/-- Prod-stage smoke test action: run order 98, consumes `AppCode`. -/
def prodSmokeTestsAction : Action :=
  { actionName := "SmokeTests"
    kind := ActionKind.buildKind
    runOrder := 98
    owner := none
    repo := none
    branch := none
    trigger := none
    inputs := ["AppCode"]
    outputs := []
    environmentVariables := []
    project := some prodQaProject
    notificationTopic := none }

/-- A pipeline stage: a name and its ordered action list. -/
structure Stage where
  stageName : String
  actions : List Action
deriving DecidableEq

/-- The Source stage, added first: both source actions. -/
def sourceStage (props : PipelineProps) : Stage :=
  { stageName := "Source"
    actions := [appSourceAction props, infraSourceAction props] }

/-- The test stage, added second: build-and-deploy, smoke tests, approval. -/
def deployToTestStage : Stage :=
  { stageName := "DeployToTest"
    actions := [deployToTestAction, smokeTestsAction, manualApprovalAction] }

/-- The prod stage, added last: build-and-deploy and smoke tests only. -/
def deployToProdStage : Stage :=
  { stageName := "DeployToProd"
    actions := [deployToProdAction, prodSmokeTestsAction] }

/-- The stages of the pipeline, in the order `pipeline.addStage` is called. -/
def pipelineStages (props : PipelineProps) : List Stage :=
  [sourceStage props, deployToTestStage, deployToProdStage]

/-- The actions of the stage named `name` (empty if no such stage). -/
def stageActions (props : PipelineProps) (name : String) : List Action :=
  match (pipelineStages props).find? (fun s => s.stageName == name) with
  | some s => s.actions
  | none => []

/-- The `SlackApproval` construct, as parameterised by the stack: the approval
topic it listens on and the notify stack name it forwards to. -/
structure SlackApprovalConstruct where
  approvalTopic : String
  notifyStackName : String
deriving DecidableEq

/-- The `PipelineNotifications` construct: email receivers of pipeline event
notifications. -/
structure PipelineNotificationsConstruct where
  receivers : String
deriving DecidableEq

/-- TypeScript truthiness of the optional string prop: the branch
`if (props.slackNotifyStackName)` is taken exactly when the prop is present
and non-empty. -/
def truthy : Option String → Bool
  | none => false
  | some s => s != ""

/-- The resources the pipeline stack constructor creates that the claims
examine: the stage topology, the SNS approval topic, the optional Slack
approval construct, and the email notifications. -/
structure PipelineStackModel where
  stages : List Stage
  approvalTopic : String
  slackApproval : Option SlackApprovalConstruct
  notifications : PipelineNotificationsConstruct
deriving DecidableEq

/-- The pipeline stack constructor (`IlliadGatewayPipelineStack`), restricted
to the resources the claims examine.  The approval topic and the email
notifications are created unconditionally; the Slack construct only inside
`if (props.slackNotifyStackName)`. -/
def illiadGatewayPipelineStack (props : PipelineProps) : PipelineStackModel :=
  { stages := pipelineStages props
    approvalTopic := approvalTopicName
    slackApproval :=
      if truthy props.slackNotifyStackName then
        some { approvalTopic := approvalTopicName
               notifyStackName := props.slackNotifyStackName.getD ("") }
      else none
    notifications := { receivers := props.emailReceivers } }

/-- Modelled from the spec: the terminal result of one action in one pipeline
execution (the orchestration engine is not part of the repository). -/
inductive ActionResult
  | succeeded
  | failed
deriving DecidableEq

/-- Modelled from the spec: resolution of the manual approval gate; `expired`
is treated as a rejection. -/
inductive ApprovalDecision
  | approved
  | rejected
  | expired
deriving DecidableEq

/-- Modelled from the spec: the outcome assignment of one execution — what
each of the concrete pipeline's actions would report if run, plus the human
approval decision. -/
structure Outcome where
  sourceApp : ActionResult
  sourceInfra : ActionResult
  testBuild : ActionResult
  testSmoke : ActionResult
  approval : ApprovalDecision
  prodBuild : ActionResult
  prodSmoke : ActionResult
deriving DecidableEq

/-- Modelled from the spec: an approval succeeds as an action exactly when the
decision is `approved`; rejection and expiry both fail the gate. -/
def approvalResult : ApprovalDecision → ActionResult
  | ApprovalDecision.approved => ActionResult.succeeded
  | ApprovalDecision.rejected => ActionResult.failed
  | ApprovalDecision.expired => ActionResult.failed

/-- Modelled from the spec: the result of an action of the concrete pipeline
under outcome `o`, selected by stage and action name. -/
def Outcome.result (o : Outcome) (stageName : String) (a : Action) : ActionResult :=
  match a.kind with
  | ActionKind.approvalKind => approvalResult o.approval
  | _ =>
    if stageName == "Source" then
      if a.actionName == "SourceAppCode" then o.sourceApp else o.sourceInfra
    else if stageName == "DeployToTest" then
      if a.actionName == "Build_and_Deploy" then o.testBuild else o.testSmoke
    else
      if a.actionName == "Build_and_Deploy" then o.prodBuild else o.prodSmoke

/-- An event of an execution: an action that started, with its stage, run
order and result. -/
structure TraceEntry where
  stage : String
  action : String
  runOrder : Nat
  result : ActionResult
deriving DecidableEq

/-- Placeholder entry for out-of-range indexing. -/
def defaultEntry : TraceEntry :=
  { stage := "", action := "", runOrder := 0, result := ActionResult.failed }

/-- Insertion into a sorted list of run orders. -/
def insertSorted (n : Nat) : List Nat → List Nat
  | [] => [n]
  | m :: ms => if n ≤ m then n :: m :: ms else m :: insertSorted n ms

/-- The distinct run orders of a stage, ascending. -/
def sortedRunOrders (s : Stage) : List Nat :=
  ((s.actions.map Action.runOrder).dedup).foldr insertSorted []

/-- Modelled from the spec: the entries produced by one run-order group of a
stage — every action of the group starts, with its result under `o`. -/
def runGroup (o : Outcome) (s : Stage) (k : Nat) : List TraceEntry :=
  (s.actions.filter (fun a => a.runOrder == k)).map
    (fun a =>
      { stage := s.stageName
        action := a.actionName
        runOrder := a.runOrder
        result := o.result s.stageName a })

/-- Trace of one stage: its entries, and whether the stage succeeded. -/
structure StageTrace where
  entries : List TraceEntry
  ok : Bool
deriving DecidableEq

/-- Modelled from the spec: a stage runs its run-order groups ascending; a
group starts only while every earlier group succeeded wholly; a group with
any failed action halts the stage. -/
def runStage (o : Outcome) (s : Stage) : StageTrace :=
  (sortedRunOrders s).foldl
    (fun tr k =>
      if tr.ok then
        let es := runGroup o s k
        { entries := tr.entries ++ es
          ok := es.all (fun e => e.result == ActionResult.succeeded) }
      else tr)
    { entries := [], ok := true }

/-- Modelled from the spec: stages run strictly in declaration order, and a
stage starts only if every earlier stage succeeded. -/
def runPipeline (o : Outcome) (stgs : List Stage) : StageTrace :=
  stgs.foldl
    (fun tr s =>
      if tr.ok then
        let st := runStage o s
        { entries := tr.entries ++ st.entries
          ok := st.ok }
      else tr)
    { entries := [], ok := true }

/-- The full trace of the concrete pipeline under outcome `o`: every action
that starts, in start order, with its result. -/
def execTrace (props : PipelineProps) (o : Outcome) : List TraceEntry :=
  (runPipeline o (pipelineStages props)).entries

/-- The trace entry recording a successful approval gate. -/
def approvalSucceededEntry : TraceEntry :=
  { stage := "DeployToTest"
    action := "ManualApprovalOfTestEnvironment"
    runOrder := 99
    result := ActionResult.succeeded }

/-- The promotion states of the specification's environment-promotion state
machine. -/
inductive PromotionState
  | NotDeployed
  | TestDeployed
  | TestVerified
  | Approved
  | ProdDeployed
  | ProdVerified
deriving DecidableEq

/-- Successor in the promotion chain (terminal state is a fixed point). -/
def nextState : PromotionState → PromotionState
  | PromotionState.NotDeployed => PromotionState.TestDeployed
  | PromotionState.TestDeployed => PromotionState.TestVerified
  | PromotionState.TestVerified => PromotionState.Approved
  | PromotionState.Approved => PromotionState.ProdDeployed
  | PromotionState.ProdDeployed => PromotionState.ProdVerified
  | PromotionState.ProdVerified => PromotionState.ProdVerified

/-- Modelled from the spec: the stage and action whose success causes the
transition out of each promotion state. -/
def transitionAction : PromotionState → Option (String × String)
  | PromotionState.NotDeployed => some ("DeployToTest", "Build_and_Deploy")
  | PromotionState.TestDeployed => some ("DeployToTest", "SmokeTests")
  | PromotionState.TestVerified => some ("DeployToTest", "ManualApprovalOfTestEnvironment")
  | PromotionState.Approved => some ("DeployToProd", "Build_and_Deploy")
  | PromotionState.ProdDeployed => some ("DeployToProd", "SmokeTests")
  | PromotionState.ProdVerified => none

/-- Abstraction of one trace entry on the promotion state: the state advances
exactly when its designated action succeeds, and stays put otherwise. -/
def stepPromo (s : PromotionState) (e : TraceEntry) : PromotionState :=
  if e.result == ActionResult.succeeded && transitionAction s == some (e.stage, e.action) then
    nextState s
  else s

/-- The promotion states visited along a trace, starting from `s`. -/
def promoTrace (s : PromotionState) : List TraceEntry → List PromotionState
  | [] => [s]
  | e :: es => s :: promoTrace (stepPromo s e) es

/-- Collapse of consecutive duplicates. -/
def squashRepeats : List PromotionState → List PromotionState
  | [] => []
  | [s] => [s]
  | s :: s' :: rest =>
    if s == s' then squashRepeats (s' :: rest) else s :: squashRepeats (s' :: rest)

/-- The promotion chain, in the specification's strict total order. -/
def promotionChain : List PromotionState :=
  [PromotionState.NotDeployed, PromotionState.TestDeployed, PromotionState.TestVerified,
   PromotionState.Approved, PromotionState.ProdDeployed, PromotionState.ProdVerified]

/-- Position of a state in the promotion chain. -/
def rank : PromotionState → Nat
  | PromotionState.NotDeployed => 0
  | PromotionState.TestDeployed => 1
  | PromotionState.TestVerified => 2
  | PromotionState.Approved => 3
  | PromotionState.ProdDeployed => 4
  | PromotionState.ProdVerified => 5

/-- The promotion chain up to and including `s`. -/
def chainUpTo (s : PromotionState) : List PromotionState :=
  promotionChain.take (rank s + 1)

/-- Modelled from the spec: the state at which an execution with outcome `o`
comes to rest — the first failure (a rejected or expired approval counts as
one) freezes the execution at the state already reached. -/
def expectedState (o : Outcome) : PromotionState :=
  if o.sourceApp == ActionResult.failed || o.sourceInfra == ActionResult.failed then
    PromotionState.NotDeployed
  else if o.testBuild == ActionResult.failed then PromotionState.NotDeployed
  else if o.testSmoke == ActionResult.failed then PromotionState.TestDeployed
  else if approvalResult o.approval == ActionResult.failed then PromotionState.TestVerified
  else if o.prodBuild == ActionResult.failed then PromotionState.Approved
  else if o.prodSmoke == ActionResult.failed then PromotionState.ProdDeployed
  else PromotionState.ProdVerified

/-- Scan of a trace in start order for C1: every prod-stage entry must be
strictly preceded by the successful approval entry; `seen` records whether
the successful approval has already passed. -/
def prodAfterApproval (seen : Bool) : List TraceEntry → Bool
  | [] => true
  | e :: es =>
    ((e.stage != "DeployToProd") || seen)
      && prodAfterApproval (seen || (e == approvalSucceededEntry)) es

/-- Scan of a trace in start order for C3: each entry must be preceded by a
successful entry of the same stage for every action of that stage with a
strictly lower run order; `seen` accumulates the entries already started. -/
def gatedByRunOrder (props : PipelineProps) (seen : List TraceEntry) :
    List TraceEntry → Bool
  | [] => true
  | e :: es =>
    ((stageActions props e.stage).all (fun a =>
        decide (e.runOrder ≤ a.runOrder)
          || seen.contains
              { stage := e.stage
                action := a.actionName
                runOrder := a.runOrder
                result := ActionResult.succeeded }))
      && gatedByRunOrder props (seen ++ [e]) es

/-- The all-success outcome, used as a concrete sample execution. -/
def allSuccess : Outcome :=
  { sourceApp := ActionResult.succeeded
    sourceInfra := ActionResult.succeeded
    testBuild := ActionResult.succeeded
    testSmoke := ActionResult.succeeded
    approval := ApprovalDecision.approved
    prodBuild := ActionResult.succeeded
    prodSmoke := ActionResult.succeeded }

/-- A concrete prop assignment, used for sample instances. -/
def sampleProps : PipelineProps :=
  { gitOwner := "ndlib"
    gitTokenPath := "/esu/github/ndlib-git"
    serviceRepository := "illiad-gateway"
    serviceBranch := "master"
    blueprintsRepository := "illiad-gateway-blueprints"
    blueprintsBranch := "master"
    emailReceivers := "dev@library.example"
    slackNotifyStackName := none
    contact := "dev@library.example"
    owner := "dev"
    sentryTokenPath := "/esu/sentry/token"
    sentryOrg := "ndlib"
    sentryProject := "illiad-gateway"
    secretsPath := "/all/illiad-gateway" }

/-- The sample props with the Slack prop present but empty. -/
def emptySlackProps : PipelineProps :=
  { sampleProps with slackNotifyStackName := some ("") }

/-- The all-success outcome except for a rejected approval. -/
def rejectedOutcome : Outcome :=
  { allSuccess with approval := ApprovalDecision.rejected }

set_option maxHeartbeats 3200000 in
/-- C1: in every execution, every prod-stage entry of the trace — the prod
Build-and-Deploy action in particular — starts strictly after the approval
gate's success has already entered the trace; and if the approval is rejected
or expires, no prod-stage action ever starts. -/
theorem prod_actions_require_approval (props : PipelineProps) :
    ∀ o : Outcome,
      prodAfterApproval false (execTrace props o) = true ∧
      (o.approval ≠ ApprovalDecision.approved →
        (execTrace props o).all (fun e => e.stage != "DeployToProd") = true) := by
  intro o
  obtain ⟨sa, si, tb, ts, ap, pb, ps⟩ := o
  cases sa <;> cases si <;> cases tb <;> cases ts <;> cases ap <;> cases pb <;>
    cases ps <;> exact of_decide_eq_true rfl

/-- Sample instance of C1: in the execution whose approval is rejected, no
prod-stage action appears in the trace. -/
theorem prod_actions_require_approval_sample :
    (execTrace sampleProps rejectedOutcome).all
        (fun e => e.stage != "DeployToProd") = true :=
  (prod_actions_require_approval sampleProps rejectedOutcome).2 (by decide)

set_option maxHeartbeats 3200000 in
/-- C2: every execution walks the promotion chain NotDeployed, TestDeployed,
TestVerified, Approved, ProdDeployed, ProdVerified in order and without
skipping: the states visited along the trace (under the abstraction
`stepPromo`, which advances exactly on the success of the one action
designated by `transitionAction`, in pipeline order) are exactly the chain up
to the resting state, and any action failure — a rejected or expired approval
included — freezes the execution there. -/
theorem promotion_chain_realized (props : PipelineProps) :
    ∀ o : Outcome,
      squashRepeats (promoTrace PromotionState.NotDeployed (execTrace props o))
        = chainUpTo (expectedState o) := by
  intro o
  obtain ⟨sa, si, tb, ts, ap, pb, ps⟩ := o
  cases sa <;> cases si <;> cases tb <;> cases ts <;> cases ap <;> cases pb <;>
    cases ps <;> exact of_decide_eq_true rfl

set_option maxHeartbeats 3200000 in
/-- C3: within every stage of every execution, an action starts only after
every action of the same stage with a strictly lower run order already
appears earlier in the trace with a successful result — so a higher run-order
group never starts while a lower one is pending or failed. -/
theorem run_order_gating (props : PipelineProps) :
    ∀ o : Outcome,
      gatedByRunOrder props [] (execTrace props o) = true := by
  intro o
  obtain ⟨sa, si, tb, ts, ap, pb, ps⟩ := o
  cases sa <;> cases si <;> cases tb <;> cases ts <;> cases ap <;> cases pb <;>
    cases ps <;> exact of_decide_eq_true rfl

/-- C4: in both deployment stages the Build-and-Deploy action runs at run
order 1, strictly below every other action of its stage, and consumes exactly
the `AppCode` and `InfraCode` artifacts for a project that names its target
environment. -/
theorem build_action_first_and_inputs :
    deployToTestAction.runOrder = 1 ∧
    deployToProdAction.runOrder = 1 ∧
    ((deployToTestStage.actions.filter
        (fun a => a.actionName != "Build_and_Deploy")).all
      (fun a => decide (deployToTestAction.runOrder < a.runOrder)) = true) ∧
    ((deployToProdStage.actions.filter
        (fun a => a.actionName != "Build_and_Deploy")).all
      (fun a => decide (deployToProdAction.runOrder < a.runOrder)) = true) ∧
    deployToTestAction.inputs = ["AppCode", "InfraCode"] ∧
    deployToProdAction.inputs = ["AppCode", "InfraCode"] ∧
    deployToTestAction.project.map BuildProject.stage = some ("test") ∧
    deployToProdAction.project.map BuildProject.stage = some ("prod") := by
  decide

/-- C5: the smoke test runs at run order 98 in the test stage, strictly after
the build-and-deploy of its stage and strictly before the approval gate; the
prod smoke test likewise runs strictly after the prod build-and-deploy. -/
theorem smoke_test_run_order :
    smokeTestsAction.runOrder = 98 ∧
    deployToTestAction.runOrder < smokeTestsAction.runOrder ∧
    smokeTestsAction.runOrder < manualApprovalAction.runOrder ∧
    deployToProdAction.runOrder < prodSmokeTestsAction.runOrder := by
  decide

/-- C6: the approval action exists only in the test stage — every other stage
has none — and its run order 99 is the strict maximum of its stage. -/
theorem approval_only_in_test_and_last (props : PipelineProps) :
    deployToTestStage.actions.filter (fun a => a.kind == ActionKind.approvalKind)
        = [manualApprovalAction] ∧
    (((pipelineStages props).filter (fun s => s.stageName != "DeployToTest")).all
        (fun s => s.actions.all (fun a => a.kind != ActionKind.approvalKind)) = true) ∧
    manualApprovalAction.runOrder = 99 ∧
    ((deployToTestStage.actions.filter
        (fun a => a.actionName != "ManualApprovalOfTestEnvironment")).all
      (fun a => decide (a.runOrder < manualApprovalAction.runOrder)) = true) := by
  exact of_decide_eq_true rfl

/-- C7 counterexample: it is not the case that every CodeBuild action
downstream of the Source stage carries the commit id as an environment value —
the smoke test actions are CodeBuild actions with no environment variables at
all. -/
theorem version_env_not_on_smoke_tests :
    ¬ (∀ s ∈ pipelineStages sampleProps, ∀ a ∈ s.actions,
        a.kind = ActionKind.buildKind →
          ("VERSION", EnvValue.commitIdOfAppSource) ∈ a.environmentVariables) := by
  decide

/-- C7 (amended): the commit id of an execution is threaded as the `VERSION`
environment value into the two Build-and-Deploy actions — so the prod build,
if reached, carries version tag `c` — while the two smoke test actions
receive no environment variables. -/
theorem version_env_on_build_actions (c : String) :
    deployToTestAction.environmentVariables = actionEnvironment ∧
    deployToProdAction.environmentVariables = actionEnvironment ∧
    actionEnvironment.map (fun p => (p.1, resolveEnv c p.2)) = [("VERSION", c)] ∧
    smokeTestsAction.environmentVariables = [] ∧
    prodSmokeTestsAction.environmentVariables = [] :=
  ⟨rfl, rfl, rfl, rfl, rfl⟩

/-- C8 counterexample: the roles of the test-environment and prod-environment
build and smoke-test projects are not distinct — they are one and the same
role object. -/
theorem build_role_shared_across_envs :
    deployToTestProject.role = deployToProdProject.role ∧
    qaProject.role = prodQaProject.role ∧
    deployToTestProject.role = qaProject.role :=
  ⟨rfl, rfl, rfl⟩

/-- C8 (amended): a single CodeBuild role, created once and scoped to both the
test and prod stages, is shared by the build and smoke-test projects of both
environments. -/
theorem single_build_role_for_both_stages :
    deployToTestProject.role = codebuildRole ∧
    qaProject.role = codebuildRole ∧
    deployToProdProject.role = codebuildRole ∧
    prodQaProject.role = codebuildRole ∧
    codebuildRole.stages = ["test", "prod"] :=
  ⟨rfl, rfl, rfl, rfl, rfl⟩

/-- C9: the Source stage produces exactly the artifacts `AppCode` and
`InfraCode`; the application source action is webhook-triggered on its
tracked service-repository branch while the infrastructure source action has
no trigger, and the application source action is the only trigger-driven
action of the stage — so a change to the blueprints repository alone starts
nothing. -/
theorem source_stage_artifacts_and_triggers (props : PipelineProps) :
    (sourceStage props).actions.map Action.outputs = [["AppCode"], ["InfraCode"]] ∧
    (appSourceAction props).trigger = some TriggerKind.webhook ∧
    (appSourceAction props).repo = some props.serviceRepository ∧
    (infraSourceAction props).trigger = some TriggerKind.noTrigger ∧
    (infraSourceAction props).repo = some props.blueprintsRepository ∧
    (sourceStage props).actions.filter (fun a => a.trigger == some TriggerKind.webhook)
        = [appSourceAction props] :=
  ⟨rfl, rfl, rfl, rfl, rfl, rfl⟩

/-- C10 counterexample: with the Slack prop provided but equal to the empty
string, the prop is present yet no Slack approval construct is created — so
creation is not equivalent to the prop being provided. -/
theorem slack_approval_empty_string_not_created :
    emptySlackProps.slackNotifyStackName.isSome = true ∧
    (illiadGatewayPipelineStack emptySlackProps).slackApproval = none := by
  decide

/-- C10 (amended): the Slack approval construct is created exactly when the
`slackNotifyStackName` prop is provided and non-empty (TypeScript
truthiness); regardless of that prop, the SNS approval topic is always
created and attached to the manual approval action, and the email pipeline
notifications always target `emailReceivers`. -/
theorem slack_approval_iff_truthy_prop (props : PipelineProps) :
    (illiadGatewayPipelineStack props).slackApproval.isSome
        = truthy props.slackNotifyStackName ∧
    (illiadGatewayPipelineStack props).approvalTopic = "PipelineApprovalTopic" ∧
    manualApprovalAction.notificationTopic = some ("PipelineApprovalTopic") ∧
    (illiadGatewayPipelineStack props).notifications.receivers = props.emailReceivers := by
  refine ⟨?_, rfl, rfl, rfl⟩
  unfold illiadGatewayPipelineStack
  cases h : truthy props.slackNotifyStackName <;> simp [h]

end IlliadGateway
